import Mathlib

/-!
Verification of the portfolio backend service (`src/main.py`).

The service is a FastAPI application over a MySQL store. We embed it
shallowly: the database is a record of row lists, each endpoint handler is
a pure Lean function, and every effect that leaves the process (the MySQL
connection and INSERT, the SendGrid HTTP call) is passed in as an explicit
oracle argument describing the outcome of that external call. Raising an
exception is embedded as `Except.error`; an HTTP error response is the
`HTTPException` record the handler raises.
-/

/-! ## Data model -/

/-- Pydantic model `ContactMessage` (src/main.py lines 50-53). The email
field is kept as the raw string; the address-format validation performed
by the `EmailStr` type at the request boundary is modelled by
`isValidEmail` below. A row of the `contact_messages` table stores the
same three fields (lines 319-322). -/
structure ContactMessage where
  name : String
  email : String
  message : String
deriving Repr, DecidableEq

/-- Pydantic model `ContactResponse` (lines 55-57). -/
structure ContactResponse where
  success : Bool
  message : String
deriving Repr, DecidableEq

/-- Pydantic model `Profile` (lines 59-71), also the shape of a row of the
`profile` table. -/
structure Profile where
  id : Int
  name : String
  title : String
  bio : Option String
  email : Option String
  phone : Option String
  location : Option String
  github_url : Option String
  linkedin_url : Option String
  twitter_url : Option String
  profile_image : Option String
  resume_url : Option String
deriving Repr, DecidableEq

/-- A row of the `skills` table as used by `get_skills` (lines 190-194):
the selected columns `category, name, proficiency, icon` plus the
`display_order` column the query sorts by. -/
structure SkillRow where
  category : String
  name : String
  proficiency : Int
  icon : Option String
  display_order : Int
deriving Repr, DecidableEq

/-- A row of the `projects` table: the pydantic `Project` fields
(lines 80-90) plus the `display_order` and `created_at` columns that
`p.*` also selects and the query sorts by (line 247). -/
structure ProjectRow where
  id : Int
  title : String
  description : Option String
  long_description : Option String
  image_url : Option String
  github_url : Option String
  live_url : Option String
  category : Option String
  featured : Bool
  display_order : Int
  created_at : Int
deriving Repr, DecidableEq

/-- A row of the `project_technologies` join table (lines 229-230). -/
structure ProjectTechRow where
  project_id : Int
  technology : String
deriving Repr, DecidableEq

/-- The relational store: one list of rows per table touched by the
endpoints under verification. List order models row/return order. -/
structure DB where
  profile : List Profile
  skills : List SkillRow
  projects : List ProjectRow
  project_technologies : List ProjectTechRow
  contact_messages : List ContactMessage
deriving Repr, DecidableEq

/-- An HTTP error raised by a handler (`HTTPException(status_code, detail)`). -/
structure HTTPException where
  status_code : Nat
  detail : String
deriving Repr, DecidableEq

/-- The three environment-derived notification credentials
(lines 45-47): each is `none` when the variable is unset. -/
structure EmailConfig where
  SENDGRID_API_KEY : Option String
  SENDER_EMAIL : Option String
  RECEIVER_EMAIL : Option String
deriving Repr, DecidableEq

/-! ## Configuration and connection helpers -/

/-- Python truthiness of an optional string: `None` and the empty string
are falsy. This is what `all([SENDGRID_API_KEY, SENDER_EMAIL,
RECEIVER_EMAIL])` tests element-wise (lines 327 and 383). -/
def truthyOptStr : Option String → Bool
  | none => false
  | some s => s != ""

/-- `all([SENDGRID_API_KEY, SENDER_EMAIL, RECEIVER_EMAIL])`
(lines 327 and 383). -/
def emailConfigured (cfg : EmailConfig) : Bool :=
  truthyOptStr cfg.SENDGRID_API_KEY && truthyOptStr cfg.SENDER_EMAIL &&
    truthyOptStr cfg.RECEIVER_EMAIL

/-- `get_db_connection` (lines 104-110): succeeds when the store is
reachable, otherwise raises a 500 with a generic message. -/
def get_db_connection (reachable : Bool) : Except HTTPException Unit :=
  if reachable then Except.ok ()
  else Except.error ⟨500, "Database connection failed"⟩

/-! ## Notification dispatcher (`send_email`, lines 113-156) -/

/-- The SendGrid `Mail` object constructed in lines 139-147. -/
structure Mail where
  from_email : Option String
  to_emails : Option String
  subject : String
  html_content : String
  reply_to : Option String
deriving Repr, DecidableEq

/-- The HTML body rendered in lines 116-137: a fixed template embedding
the contact fields verbatim (no HTML escaping). -/
def render_html (contact : ContactMessage) : String :=
  r#"
    <html>
      <body style="font-family: Arial, sans-serif; padding: 20px; background-color: #f4f4f4;">
        <div style="max-width: 600px; margin: 0 auto; background-color: white; padding: 30px; border-radius: 10px; box-shadow: 0 2px 4px rgba(0,0,0,0.1);">
          <h2 style="color: #333; border-bottom: 2px solid #8b5cf6; padding-bottom: 10px;">New Contact Form Submission</h2>
          <div style="margin: 20px 0;">
            <p style="margin: 10px 0;"><strong style="color: #666;">Name:</strong> "# ++ contact.name ++ r#"</p>
            <p style="margin: 10px 0;"><strong style="color: #666;">Email:</strong> "# ++ contact.email ++ r#"</p>
          </div>
          <div style="margin: 20px 0;">
            <h3 style="color: #666; margin-bottom: 10px;">Message:</h3>
            <div style="background-color: #f9f9f9; padding: 15px; border-left: 4px solid #8b5cf6; border-radius: 4px;">
              <p style="margin: 0; line-height: 1.6; color: #333;">"# ++ contact.message ++ r#"</p>
            </div>
          </div>
          <div style="margin-top: 20px; padding-top: 20px; border-top: 1px solid #eee;">
            <p style="color: #999; font-size: 12px;">Reply to: "# ++ contact.email ++ r#"</p>
          </div>
        </div>
      </body>
    </html>
    "#

/-- The `Mail(...)` construction plus the `reply_to` assignment
(lines 139-147). -/
def mk_mail (cfg : EmailConfig) (contact : ContactMessage) : Mail :=
  { from_email := cfg.SENDER_EMAIL
    to_emails := cfg.RECEIVER_EMAIL
    subject := "Portfolio Contact: " ++ contact.name
    html_content := render_html contact
    reply_to := some contact.email }

/-- `send_email` (lines 113-156). The SendGrid client call is external
I/O: the oracle `sg` maps the constructed mail to the outcome of
`sg.send(message)` (`Except.ok code` when the HTTP call returns a status
code, `Except.error e` when the client raises). The try/except of
lines 149-156 reduces a raised error to the return value `false`; the
result type `Except String Bool` is the embedding of a Python function
that could in principle raise. -/
def send_email (cfg : EmailConfig) (contact : ContactMessage)
    (sg : Mail → Except String Nat) : Except String Bool :=
  let message := mk_mail cfg contact
  match sg message with
  | Except.ok _code => Except.ok true
  | Except.error _e => Except.ok false

/-! ## Request validation (FastAPI boundary) -/

/-- The raw JSON body of a POST /api/contact request, before validation. -/
structure RawContactRequest where
  name : String
  email : String
  message : String
deriving Repr, DecidableEq

/-- Modelled from the spec: the email field "must parse as a syntactically
valid email address — reject otherwise with a validation error, HTTP
422-equivalent" (spec section 4.3). The actual validator lives in the
pydantic `EmailStr` dependency, outside this repository; this is a
minimal syntactic stand-in: exactly one at-sign separating a non-empty
local part from a non-empty domain that contains an interior dot, and no
spaces anywhere. -/
def isValidEmail (s : String) : Bool :=
  match s.data.splitOn '@' with
  | [loc, domain] =>
    !loc.isEmpty && !domain.isEmpty && domain.contains '.' &&
      domain.head? != some '.' && domain.getLast? != some '.' &&
      !s.data.contains ' '
  | _ => false

/-- Modelled from the spec: FastAPI validates the request body against the
`ContactMessage` pydantic model before the handler runs; a malformed
email yields a 422-class validation error and the handler is never
invoked. -/
def validate_contact_body (r : RawContactRequest) :
    Except HTTPException ContactMessage :=
  if isValidEmail r.email then Except.ok ⟨r.name, r.email, r.message⟩
  else Except.error ⟨422, "value is not a valid email address"⟩

/-! ## Contact write endpoint (`contact`, lines 311-341) -/

/-- The static acknowledgement string of lines 332-335. (The apostrophe
character is spelled via its code point.) -/
def ack_message : String :=
  "Your message has been sent successfully! I" ++ (Char.ofNat 39).toString ++
    "ll get back to you soon."

/-- The POST /api/contact handler body (lines 311-341). `insertErr` is the
outcome of the INSERT plus commit of lines 319-323: `none` when the row
was committed, `some e` when the driver raised with message `e`. On a
raise the except branch (lines 336-338) rolls back — the uncommitted row
is discarded, so the state is returned unchanged — and re-raises a 500
whose detail embeds the error text. On commit the email step of
lines 326-330 runs only when all three credentials are truthy; its
boolean outcome is logged and otherwise ignored, and `send_email` never
raises (its error branch below is unreachable), so the success response
is returned regardless. -/
def contact (db : DB) (cfg : EmailConfig) (contact_data : ContactMessage)
    (insertErr : Option String) (sg : Mail → Except String Nat) :
    DB × Except HTTPException ContactResponse :=
  match insertErr with
  | some e => (db, Except.error ⟨500, "Failed to save message: " ++ e⟩)
  | none =>
    let db2 : DB :=
      { db with contact_messages := db.contact_messages ++ [contact_data] }
    if emailConfigured cfg then
      match send_email cfg contact_data sg with
      | Except.ok _email_sent => (db2, Except.ok ⟨true, ack_message⟩)
      | Except.error e =>
        -- a raise inside the handler after the commit: rollback is a
        -- no-op on the committed row, and the except branch returns 500
        (db2, Except.error ⟨500, "Failed to save message: " ++ e⟩)
    else (db2, Except.ok ⟨true, ack_message⟩)

/-- The full POST /api/contact route: body validation, then the handler. -/
def post_contact_route (db : DB) (cfg : EmailConfig) (r : RawContactRequest)
    (insertErr : Option String) (sg : Mail → Except String Nat) :
    DB × Except HTTPException ContactResponse :=
  match validate_contact_body r with
  | Except.error e => (db, Except.error e)
  | Except.ok contact_data => contact db cfg contact_data insertErr sg

/-! ## Profile endpoint (`get_profile`, lines 165-181) -/

/-- GET /api/profile (lines 165-181): `SELECT * FROM profile LIMIT 1`,
404 when no row comes back, otherwise the first row verbatim. The state
is returned alongside to express that the read leaves it unchanged. -/
def get_profile (db : DB) : DB × Except HTTPException Profile :=
  match db.profile.head? with
  | none => (db, Except.error ⟨404, "Profile not found"⟩)
  | some p => (db, Except.ok p)

/-! ## Skills endpoint (`get_skills`, lines 183-218) -/

/-- The `ORDER BY category, display_order` comparison of line 193. -/
def skillLE (a b : SkillRow) : Bool :=
  decide (a.category < b.category) ||
    (a.category == b.category && decide (a.display_order ≤ b.display_order))

/-- The sorted result set of the skills query (lines 190-195). -/
def sortSkills (rows : List SkillRow) : List SkillRow :=
  rows.mergeSort skillLE

/-- The per-skill dict appended in lines 203-207. -/
structure SkillItem where
  name : String
  proficiency : Int
  icon : Option String
deriving Repr, DecidableEq

/-- One iteration of the grouping loop (lines 199-207) on the
insertion-ordered dict `grouped`, modelled as an association list: a new
category is appended at the end, an existing one has the item appended to
its bucket in place. -/
def addToGroup : List (String × List SkillItem) → String → SkillItem →
    List (String × List SkillItem)
  | [], cat, item => [(cat, [item])]
  | (c, items) :: rest, cat, item =>
    if c == cat then (c, items ++ [item]) :: rest
    else (c, items) :: addToGroup rest cat item

/-- The grouping loop of lines 198-207 over the whole row list. -/
def groupSkills (rows : List SkillRow) : List (String × List SkillItem) :=
  rows.foldl (fun g s => addToGroup g s.category ⟨s.name, s.proficiency, s.icon⟩) []

/-- One element of the response array built in lines 210-213. -/
structure SkillGroup where
  category : String
  items : List String
deriving Repr, DecidableEq

/-- GET /api/skills (lines 183-218): sort, group by category, then format
each group as its category with the list of item names. -/
def get_skills (db : DB) : List SkillGroup :=
  (groupSkills (sortSkills db.skills)).map (fun ci => ⟨ci.1, ci.2.map SkillItem.name⟩)

/-! ## Projects endpoints (`get_projects` lines 220-262,
`get_project` lines 264-292) -/

/-- The technology strings joined to a project by
`LEFT JOIN project_technologies pt ON p.id = pt.project_id`
(line 230), in join (row) order. -/
def joined_technologies (db : DB) (p : ProjectRow) : List String :=
  (db.project_technologies.filter (fun pt => pt.project_id == p.id)).map
    ProjectTechRow.technology

/-- MySQL `GROUP_CONCAT(pt.technology)` (line 228): NULL when the left
join produced no technology rows, otherwise the values joined by commas
in join order. Strings are concatenated at the character level. -/
def group_concat (ts : List String) : Option String :=
  match ts with
  | [] => none
  | _ :: _ => some (String.mk ([','].intercalate (ts.map String.data)))

/-- Python `s.split(sep)` for a one-character separator: split at every
occurrence, keeping empty pieces. -/
def pySplit (sep : Char) (s : String) : List String :=
  (s.data.splitOn sep).map String.mk

/-- Lines 253-257 (and 284-287): Python truthiness on the aggregated
column — `None` and the empty string are falsy and give `[]` — otherwise
split on commas. -/
def split_technologies : Option String → List String
  | none => []
  | some s => if s == "" then [] else pySplit ',' s

/-- The WHERE clause assembled in lines 233-245: the category condition
is added only when the parameter is truthy (Python: both `None` and the
empty string are falsy, so neither adds a condition), the featured
condition whenever the parameter is present. -/
def projectWhere (category : Option String) (featured : Option Bool)
    (p : ProjectRow) : Bool :=
  (match category with
   | none => true
   | some c => if c == "" then true else p.category == some c) &&
  (match featured with
   | none => true
   | some f => p.featured == f)

/-- The `ORDER BY p.display_order, p.created_at DESC` comparison of
line 247. -/
def projectLE (a b : ProjectRow) : Bool :=
  decide (a.display_order < b.display_order) ||
    (a.display_order == b.display_order && decide (b.created_at ≤ a.created_at))

/-- One element of the response array: the project row with its
`technologies` column already reshaped into a list (lines 253-257). -/
structure ProjectOut where
  row : ProjectRow
  technologies : List String
deriving Repr, DecidableEq

/-- GET /api/projects (lines 220-262): filter by the optional parameters,
aggregate each surviving row with its joined technologies, order by
display_order then created_at descending, and split the aggregate back
into a list. -/
def get_projects (db : DB) (category : Option String) (featured : Option Bool) :
    List ProjectOut :=
  ((db.projects.filter (projectWhere category featured)).mergeSort projectLE).map
    (fun p => ⟨p, split_technologies (group_concat (joined_technologies db p))⟩)

/-- GET /api/projects/{project_id} (lines 264-292): the same shape
restricted to one id; 404 when no row matches. -/
def get_project (db : DB) (project_id : Int) : Except HTTPException ProjectOut :=
  match (db.projects.filter (fun p => p.id == project_id)).head? with
  | none => Except.error ⟨404, "Project not found"⟩
  | some p =>
    Except.ok ⟨p, split_technologies (group_concat (joined_technologies db p))⟩

/-! ## Health endpoint (`health_check`, lines 369-385) -/

/-- The GET /api/health response payload (lines 380-385). -/
structure HealthPayload where
  status : String
  database_connected : Bool
  email_configured : Bool
  version : String
deriving Repr, DecidableEq

/-- GET /api/health (lines 369-385): probe the store inside a bare
try/except — a failed probe leaves `db_connected` false instead of
raising — and report the credential conjunction; the handler itself
always returns a 200 payload. -/
def health_check (reachable : Bool) (cfg : EmailConfig) :
    Except HTTPException HealthPayload :=
  let db_connected :=
    match get_db_connection reachable with
    | Except.ok _ => true
    | Except.error _ => false
  Except.ok ⟨"healthy", db_connected, emailConfigured cfg, "2.0.0"⟩

/-! ## Concrete fixtures used by witnesses and counterexamples -/

/-- A SendGrid oracle whose HTTP call returns a 202 status. -/
def sgOk : Mail → Except String Nat := fun _ => Except.ok 202

/-- A SendGrid oracle whose HTTP call raises. -/
def sgFail : Mail → Except String Nat :=
  fun _ => Except.error "HTTP Error 401: Unauthorized"

/-- A fully populated credential set. -/
def cfgAll : EmailConfig :=
  ⟨some "SG.key", some "me@example.com", some "you@example.com"⟩

/-- An empty credential set. -/
def cfgNone : EmailConfig := ⟨none, none, none⟩

/-- A profile row. -/
def profileW : Profile :=
  ⟨1, "Nithiyan", "Developer", none, none, none, none, none, none, none, none, none⟩

/-- A project row in category `web`, featured. -/
def projW : ProjectRow :=
  ⟨1, "Portfolio", none, none, none, none, none, some "web", true, 1, 100⟩

/-- The empty store. -/
def emptyDB : DB := ⟨[], [], [], [], []⟩

/-- A store with one project and no technology rows. -/
def dbW : DB := { emptyDB with projects := [projW] }

/-- A store with one project joined to two comma-free technologies. -/
def dbTech : DB :=
  { emptyDB with projects := [projW],
                 project_technologies := [⟨1, "Lean"⟩, ⟨1, "SQL"⟩] }

/-- A store with one project joined to a single technology string that
contains a comma. -/
def dbComma : DB :=
  { emptyDB with projects := [projW], project_technologies := [⟨1, "C,S"⟩] }

/-- A store with one profile row. -/
def dbProfile : DB := { emptyDB with profile := [profileW] }

/-- A well-formed contact request body. -/
def rGood : RawContactRequest := ⟨"Ada", "ada@example.com", "Hello"⟩

/-- A contact request body with a malformed email. -/
def rBad : RawContactRequest := ⟨"Ada", "not-an-email", "Hello"⟩

/-- A validated contact message. -/
def cdW : ContactMessage := ⟨"Ada", "ada@example.com", "Hello"⟩

/-- The output row expected for `dbTech`. -/
def outW : ProjectOut := ⟨projW, ["Lean", "SQL"]⟩

/-- The first-seen order of a list of keys: each distinct key once, in
order of first occurrence. Used only to state the grouping-order part of
the skills partition property. -/
def firstSeen (l : List String) : List String :=
  l.foldl (fun ks c => if c ∈ ks then ks else ks ++ [c]) []

/-! ## Helper lemmas -/

/-- `send_email` always returns a boolean: both branches of its try/except
end in `Except.ok`. -/
theorem send_email_ok (cfg : EmailConfig) (cd : ContactMessage)
    (sg : Mail → Except String Nat) :
    ∃ b : Bool, send_email cfg cd sg = Except.ok b := by
  cases h : sg (mk_mail cfg cd) with
  | ok code => exact ⟨true, by simp [send_email, h]⟩
  | error e => exact ⟨false, by simp [send_email, h]⟩

/-! ## Claim theorems -/

/-- C4: for every input and every outcome of the SendGrid HTTP call,
`send_email` returns a boolean success indicator and never propagates an
exception to its caller; the boolean is true exactly when the call
returned. -/
theorem send_email_no_raise (cfg : EmailConfig) (cd : ContactMessage)
    (sg : Mail → Except String Nat) :
    ∃ b : Bool, send_email cfg cd sg = Except.ok b ∧
      (b = true ↔ ∃ code, sg (mk_mail cfg cd) = Except.ok code) := by
  cases h : sg (mk_mail cfg cd) with
  | ok code => exact ⟨true, by simp [send_email, h], by simp [h]⟩
  | error e => exact ⟨false, by simp [send_email, h], by simp [h]⟩

/-- C9: GET /api/health never fails the request: for every probe outcome
it returns an ok payload whose `database_connected` is the probe result
(false when the store is unreachable, not an error) and whose
`email_configured` is the conjunction of the three credentials being
present and non-empty. -/
theorem health_check_spec (reachable : Bool) (cfg : EmailConfig) :
    health_check reachable cfg = Except.ok
      ⟨"healthy", reachable,
        truthyOptStr cfg.SENDGRID_API_KEY && truthyOptStr cfg.SENDER_EMAIL &&
          truthyOptStr cfg.RECEIVER_EMAIL, "2.0.0"⟩ := by
  cases reachable <;> rfl

/-- C10: GET /api/projects with `category` equal to the empty string
applies no category filter: the result equals the result with the
parameter absent. -/
theorem get_projects_empty_category (db : DB) (featured : Option Bool) :
    get_projects db (some "") featured = get_projects db none featured := by
  have h : projectWhere (some "") featured = projectWhere none featured := by
    funext p
    rfl
  rw [get_projects, get_projects, h]

/-- C3 (amended): when the INSERT or commit raises, the handler rolls
back — the state is returned unchanged — and returns a 500 whose detail
is the fixed prefix `Failed to save message: ` followed by the raw
persistence error text. -/
theorem contact_persistence_error (db : DB) (cfg : EmailConfig)
    (cd : ContactMessage) (e : String) (sg : Mail → Except String Nat) :
    contact db cfg cd (some e) sg =
      (db, Except.error ⟨500, "Failed to save message: " ++ e⟩) := rfl

/-- C3 counterexample: the 500 detail embeds the raw driver error text,
so it differs between two different persistence errors — it is not a
generic (fixed) failure message. -/
theorem contact_error_message_cex :
    (contact emptyDB cfgNone cdW (some "Duplicate entry") sgOk).2 =
      Except.error ⟨500, "Failed to save message: Duplicate entry"⟩ ∧
    (contact emptyDB cfgNone cdW (some "Lock wait timeout exceeded") sgOk).2 =
      Except.error ⟨500, "Failed to save message: Lock wait timeout exceeded"⟩ ∧
    ("Failed to save message: Duplicate entry" : String) ≠
      "Failed to save message: Lock wait timeout exceeded" := by
  exact ⟨rfl, rfl, by decide⟩

/-- C2: a request whose email fails address-format validation is rejected
with the 422 validation error and the handler never runs: the state is
returned unchanged for every insert outcome and email oracle. -/
theorem contact_invalid_email (db : DB) (cfg : EmailConfig)
    (r : RawContactRequest) (insertErr : Option String)
    (sg : Mail → Except String Nat) (h : isValidEmail r.email = false) :
    post_contact_route db cfg r insertErr sg =
      (db, Except.error ⟨422, "value is not a valid email address"⟩) := by
  simp [post_contact_route, validate_contact_body, h]

/-- C2 witness: the concrete request with email `not-an-email` is
rejected with 422 and the empty store is unchanged. -/
theorem contact_invalid_email_witness :
    post_contact_route emptyDB cfgAll rBad none sgOk =
      (emptyDB, Except.error ⟨422, "value is not a valid email address"⟩) :=
  contact_invalid_email emptyDB cfgAll rBad none sgOk (by decide)

/-- C1: for every valid submission (non-empty name, valid email,
non-empty message) whose insert commits, the new state is the old one
with exactly the submitted fields appended to `contact_messages`, and the
response is success with the static acknowledgement — for every
credential configuration and every email delivery outcome. -/
theorem contact_valid_submission (db : DB) (cfg : EmailConfig)
    (r : RawContactRequest) (sg : Mail → Except String Nat)
    (hname : r.name ≠ "") (hemail : isValidEmail r.email = true)
    (hmsg : r.message ≠ "") :
    post_contact_route db cfg r none sg =
      ({ db with contact_messages :=
          db.contact_messages ++ [⟨r.name, r.email, r.message⟩] },
        Except.ok ⟨true, ack_message⟩) := by
  rcases send_email_ok cfg ⟨r.name, r.email, r.message⟩ sg with ⟨b, hb⟩
  cases hcfg : emailConfigured cfg <;>
    simp [post_contact_route, validate_contact_body, hemail, contact, hcfg, hb]

/-- C1 witness: a concrete valid submission against the empty store, with
all credentials configured and a delivery oracle that succeeds. -/
theorem contact_valid_submission_witness :
    post_contact_route emptyDB cfgAll rGood none sgOk =
      ({ emptyDB with contact_messages :=
          emptyDB.contact_messages ++ [⟨"Ada", "ada@example.com", "Hello"⟩] },
        Except.ok ⟨true, ack_message⟩) :=
  contact_valid_submission emptyDB cfgAll rGood sgOk (by decide) (by decide)
    (by decide)

/-- C8: GET /api/profile leaves the state unchanged, returns the 404 error
exactly when the profile table is empty, and otherwise returns the first
row verbatim (first-row-wins for every tail). -/
theorem get_profile_spec (db : DB) :
    (get_profile db).1 = db ∧
    ((get_profile db).2 = Except.error ⟨404, "Profile not found"⟩ ↔
      db.profile = []) ∧
    ∀ p rest, db.profile = p :: rest → (get_profile db).2 = Except.ok p := by
  cases h : db.profile with
  | nil =>
    refine ⟨by simp [get_profile, h], by simp [get_profile, h], ?_⟩
    intro p rest hpr
    simp [h] at hpr
  | cons p rest =>
    refine ⟨by simp [get_profile, h], by simp [get_profile, h], ?_⟩
    intro q qrest hq
    injection hq with h1 h2
    subst h1
    simp [get_profile, h]

/-- C8 witness: on a store whose profile table holds exactly one row, the
endpoint returns that row. -/
theorem get_profile_spec_witness :
    (get_profile dbProfile).2 = Except.ok profileW :=
  (get_profile_spec dbProfile).2.2 profileW [] rfl

/-- Membership in the GET /api/projects result characterised: an output
element appears exactly when its row is a projects row passing the WHERE
clause and its technologies field is the reshaped aggregate of the
joined technologies of that row. -/
theorem mem_get_projects (db : DB) (category : Option String)
    (featured : Option Bool) (out : ProjectOut) :
    out ∈ get_projects db category featured ↔
      out.row ∈ db.projects ∧ projectWhere category featured out.row = true ∧
      out.technologies =
        split_technologies (group_concat (joined_technologies db out.row)) := by
  unfold get_projects
  rw [List.mem_map]
  constructor
  · rintro ⟨p, hp, hout⟩
    rw [List.mem_mergeSort, List.mem_filter] at hp
    subst hout
    exact ⟨hp.1, hp.2, rfl⟩
  · rintro ⟨hmem, hw, htech⟩
    refine ⟨out.row, ?_, ?_⟩
    · rw [List.mem_mergeSort, List.mem_filter]
      exact ⟨hmem, hw⟩
    · obtain ⟨row, tech⟩ := out
      simp only at htech ⊢
      rw [htech]

/-- A project row is represented in the GET /api/projects result exactly
when it is in the projects table and passes the WHERE clause. -/
theorem exists_out_row (db : DB) (category : Option String)
    (featured : Option Bool) (p : ProjectRow) :
    (∃ out ∈ get_projects db category featured, out.row = p) ↔
      p ∈ db.projects ∧ projectWhere category featured p = true := by
  constructor
  · rintro ⟨out, hmem, hrow⟩
    rw [mem_get_projects] at hmem
    subst hrow
    exact ⟨hmem.1, hmem.2.1⟩
  · rintro ⟨hmem, hw⟩
    exact ⟨⟨p, split_technologies (group_concat (joined_technologies db p))⟩,
      (mem_get_projects db category featured _).mpr ⟨hmem, hw, rfl⟩, rfl⟩

/-- C5 (amended): for every NON-EMPTY category string X, GET /api/projects
with category=X returns exactly the projects whose category equals X;
with featured=b exactly those whose featured flag equals b; with both
parameters, exactly the intersection. (For the empty string the category
filter is skipped; see the counterexample and C10.) -/
theorem get_projects_filter (db : DB) (p : ProjectRow) :
    (∀ X : String, X ≠ "" →
      ((∃ out ∈ get_projects db (some X) none, out.row = p) ↔
        p ∈ db.projects ∧ p.category = some X)) ∧
    (∀ b : Bool,
      ((∃ out ∈ get_projects db none (some b), out.row = p) ↔
        p ∈ db.projects ∧ p.featured = b)) ∧
    (∀ X : String, X ≠ "" → ∀ b : Bool,
      ((∃ out ∈ get_projects db (some X) (some b), out.row = p) ↔
        p ∈ db.projects ∧ p.category = some X ∧ p.featured = b)) := by
  refine ⟨?_, ?_, ?_⟩
  · intro X hX
    rw [exists_out_row]
    have hbeq : (X == "") = false := by simp [hX]
    simp [projectWhere, hbeq]
  · intro b
    rw [exists_out_row]
    simp [projectWhere]
  · intro X hX b
    rw [exists_out_row]
    have hbeq : (X == "") = false := by simp [hX]
    simp [projectWhere, hbeq, and_assoc]

/-- C5 witness: with category=web the store holding one web project
returns an output element for that project. -/
theorem get_projects_filter_witness :
    ∃ out ∈ get_projects dbW (some "web") none, out.row = projW :=
  ((get_projects_filter dbW projW).1 "web" (by decide)).mpr
    ⟨by decide, by decide⟩

/-- C5 counterexample: called with the empty category string on a store
whose only project has category `web`, the endpoint returns that project,
although its category does not equal the empty string — so the claim
fails at X equal to the empty string. -/
theorem get_projects_filter_cex :
    (get_projects dbW (some "") none).map (fun o => o.row.category) =
      [some "web"] ∧ (some "web" : Option String) ≠ some "" := by
  constructor
  · have h : dbW.projects.filter (projectWhere (some "") none) = [projW] := by
      decide
    rw [get_projects, h, List.mergeSort_singleton]
    rfl
  · decide

/-- Rebuilding a string from its character list is the identity. -/
theorem string_mk_data (s : String) : String.mk s.data = s := by
  cases s
  rfl

/-- If every aggregated technology string is non-empty and comma-free,
the application-level split is a left inverse of the store-level
aggregation; zero rows aggregate to NULL and split to the empty list. -/
theorem split_group_concat (ts : List String)
    (hc : ∀ t ∈ ts, (',') ∉ t.data) (hne : ∀ t ∈ ts, t ≠ "") :
    split_technologies (group_concat ts) = ts := by
  cases ts with
  | nil => rfl
  | cons t rest =>
    have hmap : ∀ l ∈ (t :: rest).map String.data, (',') ∉ l := by
      intro l hl
      rw [List.mem_map] at hl
      obtain ⟨u, hu, hul⟩ := hl
      subst hul
      exact hc u hu
    have hnil : (t :: rest).map String.data ≠ [] := by simp
    have H := List.splitOn_intercalate ((t :: rest).map String.data) ',' hmap hnil
    have hdata : (String.mk ([','].intercalate ((t :: rest).map String.data))).data
        = [','].intercalate ((t :: rest).map String.data) := rfl
    have hsne : (String.mk ([','].intercalate ((t :: rest).map String.data)) == "")
        = false := by
      rw [beq_eq_false_iff_ne]
      intro hcon
      have hd : [','].intercalate ((t :: rest).map String.data) = [] := by
        have := congrArg String.data hcon
        simpa using this
      rw [hd] at H
      simp [List.splitOn] at H
      exact hne t (List.mem_cons_self t rest)
        (by rw [← string_mk_data t, H.1])
    show split_technologies (some (String.mk
      ([','].intercalate ((t :: rest).map String.data)))) = t :: rest
    simp only [split_technologies, hsne, Bool.false_eq_true, if_false, pySplit]
    rw [H, List.map_map]
    have hcomp : String.mk ∘ String.data = id := funext string_mk_data
    rw [hcomp, List.map_id]

/-- C6 (amended): for every project returned by GET /api/projects or by
GET /api/projects/{id} whose joined technology strings are all non-empty
and comma-free, the technologies field is exactly the list of joined
technology strings — in particular the empty list when there are zero
joined rows. (Without that proviso the round trip fails; see the
counterexample.) -/
theorem technologies_roundtrip (db : DB) (category : Option String)
    (featured : Option Bool) (project_id : Int) (out : ProjectOut)
    (hc : ∀ t ∈ joined_technologies db out.row, (',') ∉ t.data)
    (hne : ∀ t ∈ joined_technologies db out.row, t ≠ "") :
    (out ∈ get_projects db category featured →
      out.technologies = joined_technologies db out.row) ∧
    (get_project db project_id = Except.ok out →
      out.technologies = joined_technologies db out.row) := by
  constructor
  · intro hmem
    rw [mem_get_projects] at hmem
    rw [hmem.2.2]
    exact split_group_concat _ hc hne
  · intro hok
    unfold get_project at hok
    cases hh : (db.projects.filter (fun p => p.id == project_id)).head? with
    | none =>
      rw [hh] at hok
      exact (Except.noConfusion hok)
    | some p =>
      rw [hh] at hok
      injection hok with h1
      subst h1
      exact split_group_concat _ hc hne

/-- C6 witness: a store joining one project to the technologies `Lean`
and `SQL` returns exactly that list. -/
theorem technologies_roundtrip_witness :
    outW.technologies = joined_technologies dbTech outW.row :=
  (technologies_roundtrip dbTech none none 1 outW (by decide) (by decide)).1
    ((mem_get_projects dbTech none none outW).mpr ⟨by decide, by decide, by decide⟩)

/-- C6 counterexample: a project joined to the single technology string
`C,S` (which contains a comma) is returned with technologies
`[C, S]`, not `[C,S]`: the aggregation/split round trip loses the
joined string and fabricates two others. -/
theorem technologies_roundtrip_cex :
    get_project dbComma 1 = Except.ok ⟨projW, ["C", "S"]⟩ ∧
    joined_technologies dbComma projW = ["C,S"] ∧
    (["C", "S"] : List String) ≠ ["C,S"] := by
  exact ⟨rfl, by decide, by decide⟩

/-- Keys after one grouping step: unchanged when the category is already
a key, otherwise the category is appended at the end. -/
theorem addToGroup_keys (g : List (String × List SkillItem)) (cat : String)
    (item : SkillItem) :
    (addToGroup g cat item).map Prod.fst =
      if cat ∈ g.map Prod.fst then g.map Prod.fst
      else g.map Prod.fst ++ [cat] := by
  induction g with
  | nil => simp [addToGroup]
  | cons hd tl ih =>
    obtain ⟨c, items⟩ := hd
    by_cases h : c = cat
    · subst h
      simp [addToGroup]
    · have hbeq : (c == cat) = false := by simp [h]
      by_cases h2 : cat ∈ tl.map Prod.fst
      · simp [addToGroup, hbeq, ih, h2, Ne.symm h]
      · simp [addToGroup, hbeq, ih, h2, Ne.symm h]

/-- Items after one grouping step: the flattened buckets gain exactly the
new item, as a multiset. -/
theorem addToGroup_flatten (g : List (String × List SkillItem)) (cat : String)
    (item : SkillItem) :
    ((addToGroup g cat item).map Prod.snd).flatten.Perm
      ((g.map Prod.snd).flatten ++ [item]) := by
  induction g with
  | nil => simp [addToGroup]
  | cons hd tl ih =>
    obtain ⟨c, items⟩ := hd
    by_cases h : c = cat
    · subst h
      simp only [addToGroup, beq_self_eq_true, if_true, List.map_cons,
        List.flatten_cons]
      rw [List.append_assoc, List.append_assoc]
      exact List.Perm.append_left items List.perm_append_comm
    · have hbeq : (c == cat) = false := by simp [h]
      simp only [addToGroup, hbeq, Bool.false_eq_true, if_false, List.map_cons,
        List.flatten_cons]
      rw [List.append_assoc]
      exact List.Perm.append_left items ih

/-- The grouping loop keeps the keys without duplicates, from any
accumulator with duplicate-free keys. -/
theorem groupSkills_go_nodup (rows : List SkillRow) :
    ∀ g : List (String × List SkillItem), (g.map Prod.fst).Nodup →
      (((rows.foldl (fun g s =>
          addToGroup g s.category ⟨s.name, s.proficiency, s.icon⟩) g).map
        Prod.fst).Nodup) := by
  induction rows with
  | nil => intro g hg; simpa using hg
  | cons r rest ih =>
    intro g hg
    simp only [List.foldl_cons]
    apply ih
    rw [addToGroup_keys]
    by_cases h : r.category ∈ g.map Prod.fst
    · simpa [h] using hg
    · simp [h, hg, List.nodup_append, hg]

/-- The grouping loop appends, as a multiset, exactly the items of the
rows it consumes to the flattened buckets of the accumulator. -/
theorem groupSkills_go_flatten (rows : List SkillRow) :
    ∀ g : List (String × List SkillItem),
      (((rows.foldl (fun g s =>
          addToGroup g s.category ⟨s.name, s.proficiency, s.icon⟩) g).map
        Prod.snd).flatten).Perm
        ((g.map Prod.snd).flatten ++
          rows.map (fun s => (⟨s.name, s.proficiency, s.icon⟩ : SkillItem))) := by
  induction rows with
  | nil => intro g; simp
  | cons r rest ih =>
    intro g
    simp only [List.foldl_cons, List.map_cons]
    refine (ih _).trans ?_
    refine ((addToGroup_flatten g r.category
      ⟨r.name, r.proficiency, r.icon⟩).append_right _).trans ?_
    rw [List.append_assoc]
    exact List.Perm.refl _

/-- The keys produced by the grouping loop are the keys of the
accumulator folded with first-seen insertion over the row categories. -/
theorem groupSkills_go_keys (rows : List SkillRow) :
    ∀ g : List (String × List SkillItem),
      ((rows.foldl (fun g s =>
          addToGroup g s.category ⟨s.name, s.proficiency, s.icon⟩) g).map
        Prod.fst) =
        (rows.map SkillRow.category).foldl
          (fun ks c => if c ∈ ks then ks else ks ++ [c]) (g.map Prod.fst) := by
  induction rows with
  | nil => intro g; rfl
  | cons r rest ih =>
    intro g
    simp only [List.foldl_cons, List.map_cons]
    rw [ih, addToGroup_keys]

/-- C7: the GET /api/skills response is a partition of the input rows: no
category appears in two output groups, the concatenation of the groups
reproduces the multiset of all skill names (none lost or duplicated), and
the groups appear in first-seen category order of the
(category, display_order)-sorted rows. -/
theorem get_skills_partition (db : DB) :
    ((get_skills db).map SkillGroup.category).Nodup ∧
    (((get_skills db).map SkillGroup.items).flatten).Perm
      (db.skills.map SkillRow.name) ∧
    (get_skills db).map SkillGroup.category =
      firstSeen ((sortSkills db.skills).map SkillRow.category) := by
  have hkeys : (get_skills db).map SkillGroup.category =
      (groupSkills (sortSkills db.skills)).map Prod.fst := by
    simp [get_skills, List.map_map, Function.comp]
  refine ⟨?_, ?_, ?_⟩
  · rw [hkeys]
    exact groupSkills_go_nodup (sortSkills db.skills) [] (by simp)
  · have hitems : ((get_skills db).map SkillGroup.items).flatten =
        (((groupSkills (sortSkills db.skills)).map Prod.snd).flatten).map
          SkillItem.name := by
      simp only [get_skills, List.map_map, List.map_flatten]
      rfl
    rw [hitems]
    have h1 := (groupSkills_go_flatten (sortSkills db.skills) []).map SkillItem.name
    simp only [List.map_nil, List.flatten_nil, List.nil_append, List.map_map] at h1
    refine h1.trans ?_
    have h2 : (sortSkills db.skills).map
        (SkillItem.name ∘ fun s => (⟨s.name, s.proficiency, s.icon⟩ : SkillItem)) =
        (sortSkills db.skills).map SkillRow.name := rfl
    rw [h2]
    exact (List.mergeSort_perm db.skills skillLE).map SkillRow.name
  · rw [hkeys, groupSkills, groupSkills_go_keys (sortSkills db.skills) []]
    rfl
